import Mathlib

/-!
Verification of the OSRM compact-graph core.

This development embeds the compact CSR-style static graph of the routing
core and the raw extractor edge record, and proves the documented
properties of construction, range and degree queries, the Find family of
lookups, the comparator contract and the sentinel bound records.

The static graph itself (static_graph.hpp) is not among the sources at
hand; only its unit test (UnitTests/data_structures/StaticGraphTest.cpp)
is.  The graph operations are therefore modelled from the specification
text, while the test scaffolding (TestData, TestEdge, GraphFromEdgeList,
the concrete five-edge scenario) and the extractor record
(Extractor/InternalExtractorEdge.h) are translated from the sources
directly.
-/

/-- Modelled from the spec: NodeID is an opaque unsigned 32-bit integer
identifier whose reserved sentinel `SPECIAL_NODEID` is the maximum
representable value (the defining header `typedefs.h` is not among the
sources at hand). -/
def SPECIAL_NODEID : Nat := 2 ^ 32 - 1

/-- Modelled from the spec: EdgeID is an opaque unsigned 32-bit integer
identifier whose reserved sentinel `SPECIAL_EDGEID` is the maximum
representable value (the defining header `typedefs.h` is not among the
sources at hand). -/
def SPECIAL_EDGEID : Nat := 2 ^ 32 - 1

/-- One entry of the node offset array, holding the index of the first
outgoing edge of the node (`{EdgeID first_edge}`). -/
structure NodeArrayEntry where
  first_edge : Nat
deriving DecidableEq

/-- One entry of the flat edge array, holding the target node and the
caller-supplied payload (`{NodeID target; EdgeData data}`). -/
structure EdgeArrayEntry (EdgeData : Type) where
  target : Nat
  data : EdgeData

/-- One Mode-B construction input, `{source, target, data}`. -/
structure InputEdge (EdgeData : Type) where
  source : Nat
  target : Nat
  data : EdgeData

/-- The immutable CSR-style directed multigraph.  It owns a node offset
array of size `number_of_nodes + 1` and a flat edge array of size
`number_of_edges`. -/
structure StaticGraph (EdgeData : Type) where
  number_of_nodes : Nat
  number_of_edges : Nat
  node_array : List NodeArrayEntry
  edge_array : List (EdgeArrayEntry EdgeData)

/-- Out-degree of source node `s` in the input edge list `E`: the number of
input edges whose source is `s` (step 1 of the Mode-B counting-sort
build). -/
def degreeOf {EdgeData : Type} (E : List (InputEdge EdgeData)) (s : Nat) : Nat :=
  (E.filter (fun e => e.source == s)).length

/-- Prefix sum of the per-source out-degree counts: the `first_edge` offset
of node `i` in the Mode-B counting-sort bucket layout (step 2 of the
build). -/
def firstEdgeOffset {EdgeData : Type} (E : List (InputEdge EdgeData)) (i : Nat) : Nat :=
  ((List.range i).map (degreeOf E)).sum

/-- The adjacency bucket of source node `s` after the Mode-B fill.  The
fill re-scans the input in original order and places each edge at the
still-unfilled tail of its source bucket through a decrementing cursor, so
the j-th same-source input edge lands in slot `degree - 1 - j`: the bucket
holds the same-source input edges in reverse input order. -/
def bucketOf {EdgeData : Type} (E : List (InputEdge EdgeData)) (s : Nat) :
    List (EdgeArrayEntry EdgeData) :=
  ((E.filter (fun e => e.source == s)).reverse).map (fun e => ⟨e.target, e.data⟩)

/-- Modelled from the spec: Mode-B construction (`static_graph.hpp` is not
among the sources at hand).  From a node count and an unordered input edge
list it (1) counts out-degrees per source, (2) prefix-sums them into
`first_edge` offsets with a trailing sentinel equal to the total edge
count, and (3-4) fills each source bucket through a per-node
remaining-count cursor, which stores same-source edges in reverse input
order (`bucketOf`); buckets are laid out contiguously in source order. -/
def StaticGraph.fromEdgeList {EdgeData : Type} (nodes : Nat)
    (E : List (InputEdge EdgeData)) : StaticGraph EdgeData :=
  { number_of_nodes := nodes
    number_of_edges := E.length
    node_array := (List.range (nodes + 1)).map (fun i => ⟨firstEdgeOffset E i⟩)
    edge_array := (List.range nodes).flatMap (bucketOf E) }

/-- Modelled from the spec: Mode-A construction adopts a complete prebuilt
node offset array (size `N + 1`) and edge array verbatim; only size
consistency is implied, the caller is trusted for offset correctness. -/
def StaticGraph.fromArrays {EdgeData : Type} (nodes : List NodeArrayEntry)
    (edges : List (EdgeArrayEntry EdgeData)) : StaticGraph EdgeData :=
  { number_of_nodes := nodes.length - 1
    number_of_edges := edges.length
    node_array := nodes
    edge_array := edges }

/-- Query `GetNumberOfNodes()`. -/
def StaticGraph.GetNumberOfNodes {EdgeData : Type} (g : StaticGraph EdgeData) : Nat :=
  g.number_of_nodes

/-- Query `GetNumberOfEdges()`. -/
def StaticGraph.GetNumberOfEdges {EdgeData : Type} (g : StaticGraph EdgeData) : Nat :=
  g.number_of_edges

/-- Query `BeginEdges(node)`, reading `node_array[node].first_edge`.  The
reference code performs no bounds check; an out-of-range read is modelled
by the default value of `getD` and is only ever relied upon under the
documented precondition `node < GetNumberOfNodes()`. -/
def StaticGraph.BeginEdges {EdgeData : Type} (g : StaticGraph EdgeData) (n : Nat) : Nat :=
  (g.node_array.getD n ⟨0⟩).first_edge

/-- Query `EndEdges(node)`, reading `node_array[node + 1].first_edge`. -/
def StaticGraph.EndEdges {EdgeData : Type} (g : StaticGraph EdgeData) (n : Nat) : Nat :=
  (g.node_array.getD (n + 1) ⟨0⟩).first_edge

/-- Query `GetOutDegree(node) = EndEdges(node) - BeginEdges(node)`. -/
def StaticGraph.GetOutDegree {EdgeData : Type} (g : StaticGraph EdgeData) (n : Nat) : Nat :=
  g.EndEdges n - g.BeginEdges n

/-- Direct accessor `edge_array[edge].target`. -/
def StaticGraph.GetTarget {EdgeData : Type} [Inhabited EdgeData]
    (g : StaticGraph EdgeData) (e : Nat) : Nat :=
  (g.edge_array.getD e ⟨0, default⟩).target

/-- Direct accessor `edge_array[edge].data`. -/
def StaticGraph.GetEdgeData {EdgeData : Type} [Inhabited EdgeData]
    (g : StaticGraph EdgeData) (e : Nat) : EdgeData :=
  (g.edge_array.getD e ⟨0, default⟩).data

/-- Lookup `FindEdge(from, to)`: linear scan of the half-open index range
`[BeginEdges(from), EndEdges(from))` for the first entry whose target
matches, returning `SPECIAL_EDGEID` when none does. -/
def StaticGraph.FindEdge {EdgeData : Type} [Inhabited EdgeData]
    (g : StaticGraph EdgeData) (source t : Nat) : Nat :=
  match (List.range' (g.BeginEdges source) (g.GetOutDegree source)).find?
      (fun i => g.GetTarget i == t) with
  | some i => i
  | none => SPECIAL_EDGEID

/-- Lookup `FindEdgeInEitherDirection(from, to)`: tries `FindEdge(from,
to)` and falls back to `FindEdge(to, from)` when the forward lookup is
absent. -/
def StaticGraph.FindEdgeInEitherDirection {EdgeData : Type} [Inhabited EdgeData]
    (g : StaticGraph EdgeData) (u v : Nat) : Nat :=
  let e := g.FindEdge u v
  if e = SPECIAL_EDGEID then g.FindEdge v u else e

/-- Lookup `FindEdgeIndicateIfReverse(from, to, result)`: the same fallback
as `FindEdgeInEitherDirection`, additionally reporting through the in-out
flag `result` whether the match was located by reversing the query; the
flag keeps its incoming value unless the reverse lookup succeeds. -/
def StaticGraph.FindEdgeIndicateIfReverse {EdgeData : Type} [Inhabited EdgeData]
    (g : StaticGraph EdgeData) (u v : Nat) (result : Bool) : Nat × Bool :=
  let e := g.FindEdge u v
  if e = SPECIAL_EDGEID then
    let e2 := g.FindEdge v u
    (e2, if e2 = SPECIAL_EDGEID then result else true)
  else (e, result)

/-- Payload type of the unit test: `{EdgeID id; bool shortcut; unsigned
distance}`. -/
structure TestData where
  id : Nat
  shortcut : Bool
  distance : Nat
deriving DecidableEq

instance : Inhabited TestData := ⟨⟨0, false, 0⟩⟩

/-- Input record of the unit test: `{unsigned source, target, distance}`. -/
structure TestEdge where
  source : Nat
  target : Nat
  distance : Nat

/-- Translation of `GraphFromEdgeList` of the unit test: it wraps each test
edge into an input edge whose payload id is its input position, derives
the node count as the maximum observed node id (note: without adding one),
and builds the graph through Mode B. -/
def GraphFromEdgeList (edges : List TestEdge) : StaticGraph TestData :=
  let input_edges :=
    edges.enum.map (fun p => InputEdge.mk p.2.source p.2.target ⟨p.1, false, p.2.distance⟩)
  let num_nodes := edges.foldl (fun acc e => max acc (max e.source e.target)) 0
  StaticGraph.fromEdgeList num_nodes input_edges

/-- The five test edges of `find_test`, in input order. -/
def findTestEdges : List TestEdge :=
  [⟨0, 1, 1⟩, ⟨3, 0, 2⟩, ⟨3, 4, 4⟩, ⟨4, 3, 3⟩, ⟨3, 0, 1⟩]

/-- Input edges of the concrete scenario of the spec: payload ids are the
input positions 0..4 of the five edges. -/
def specScenarioInputEdges : List (InputEdge TestData) :=
  [⟨0, 1, ⟨0, false, 1⟩⟩, ⟨3, 0, ⟨1, false, 2⟩⟩, ⟨3, 4, ⟨2, false, 4⟩⟩,
   ⟨4, 3, ⟨3, false, 3⟩⟩, ⟨3, 0, ⟨4, false, 1⟩⟩]

/-- The concrete scenario graph of the spec: 5 nodes (0..4) and the five
input edges above, built through Mode B. -/
def specScenarioGraph : StaticGraph TestData :=
  StaticGraph.fromEdgeList 5 specScenarioInputEdges

/-- Modelled from the spec: travel mode codes (the defining header
`DataStructures/TravelMode.h` is not among the sources at hand) form a
small fixed enumerated set that includes an inaccessible variant encoded
as zero; the record below stores a code in a 4-bit-wide field, so valid
codes occupy 0..15. -/
def TRAVEL_MODE_INACCESSIBLE : Nat := 0

/-- Modelled from the spec: a position value (from `osrm/Coordinate.h`,
not among the sources at hand); only its presence in the record matters at
this layer. -/
structure FixedPointCoordinate where
  lat : Int
  lon : Int
deriving DecidableEq

/-- Default-constructed coordinate of a freshly built record. -/
def FixedPointCoordinate.init : FixedPointCoordinate := ⟨0, 0⟩

/-- The raw weighted edge record emitted by extraction
(`InternalExtractorEdge` of `Extractor/InternalExtractorEdge.h`).  The
`travel_mode` member is declared with a 4-bit field width (`TravelMode
travel_mode : 4`), so only the four low bits of an assigned code are
stored; `start` and `target` hold NodeID values, which are unsigned 32-bit
integers. -/
structure InternalExtractorEdge where
  start : Nat
  target : Nat
  direction : Int
  speed : Float
  name_id : Nat
  is_roundabout : Bool
  is_in_tiny_cc : Bool
  is_duration_set : Bool
  is_access_restricted : Bool
  travel_mode : Nat
  is_split : Bool
  source_coordinate : FixedPointCoordinate
  target_coordinate : FixedPointCoordinate

/-- The parameterized constructor of `InternalExtractorEdge`: every
argument is assigned verbatim to the field of the same name; the single
exception forced by the layout is `travel_mode`, whose 4-bit field keeps
only the low four bits of the passed code.  The coordinate members are
left default-constructed, as in the source. -/
def InternalExtractorEdge.make (start target : Nat) (direction : Int) (speed : Float)
    (name_id : Nat) (is_roundabout is_in_tiny_cc is_duration_set is_access_restricted : Bool)
    (travel_mode : Nat) (is_split : Bool) : InternalExtractorEdge :=
  { start := start, target := target, direction := direction, speed := speed,
    name_id := name_id, is_roundabout := is_roundabout, is_in_tiny_cc := is_in_tiny_cc,
    is_duration_set := is_duration_set, is_access_restricted := is_access_restricted,
    travel_mode := travel_mode % 2 ^ 4, is_split := is_split,
    source_coordinate := FixedPointCoordinate.init,
    target_coordinate := FixedPointCoordinate.init }

/-- Static factory `InternalExtractorEdge::min_value()`: all-zero bound
record for external-sort partitioning. -/
def InternalExtractorEdge.min_value : InternalExtractorEdge :=
  InternalExtractorEdge.make 0 0 0 0 0 false false false false TRAVEL_MODE_INACCESSIBLE false

/-- Static factory `InternalExtractorEdge::max_value()`: bound record with
`start = target = SPECIAL_NODEID` for external-sort partitioning. -/
def InternalExtractorEdge.max_value : InternalExtractorEdge :=
  InternalExtractorEdge.make SPECIAL_NODEID SPECIAL_NODEID 0 0 0 false false false false
    TRAVEL_MODE_INACCESSIBLE false

/-- Comparator `CmpEdgeByStartID::operator()`: strictly less on the start
field only. -/
def CmpEdgeByStartID (a b : InternalExtractorEdge) : Bool :=
  decide (a.start < b.start)

/-- Member `CmpEdgeByStartID::max_value()`. -/
def CmpEdgeByStartID.max_value : InternalExtractorEdge := InternalExtractorEdge.max_value

/-- Member `CmpEdgeByStartID::min_value()`. -/
def CmpEdgeByStartID.min_value : InternalExtractorEdge := InternalExtractorEdge.min_value

/-- Comparator `CmpEdgeByTargetID::operator()`: strictly less on the
target field only. -/
def CmpEdgeByTargetID (a b : InternalExtractorEdge) : Bool :=
  decide (a.target < b.target)

/-- Member `CmpEdgeByTargetID::max_value()`. -/
def CmpEdgeByTargetID.max_value : InternalExtractorEdge := InternalExtractorEdge.max_value

/-- Member `CmpEdgeByTargetID::min_value()`. -/
def CmpEdgeByTargetID.min_value : InternalExtractorEdge := InternalExtractorEdge.min_value

/-- Unfolding of one prefix-sum step of the bucket offsets. -/
theorem firstEdgeOffset_succ {D : Type} (E : List (InputEdge D)) (i : Nat) :
    firstEdgeOffset E (i + 1) = firstEdgeOffset E i + degreeOf E i := by
  simp [firstEdgeOffset, List.range_succ]

/-- Partition step: the edges with source below `i + 1` are the edges with
source below `i` together with the edges with source exactly `i`. -/
theorem length_filter_source_lt_succ {D : Type} (E : List (InputEdge D)) (i : Nat) :
    (E.filter (fun e => decide (e.source < i + 1))).length
      = (E.filter (fun e => decide (e.source < i))).length + degreeOf E i := by
  induction E with
  | nil => simp [degreeOf]
  | cons e tl ih =>
    simp only [degreeOf, List.filter_cons] at *
    by_cases h1 : e.source < i
    · have h2 : e.source < i + 1 := by omega
      have h3 : ¬ e.source = i := by omega
      simp [h1, h2, h3, ih, degreeOf]
      omega
    · by_cases h4 : e.source = i
      · have h2 : e.source < i + 1 := by omega
        simp [h1, h2, h4, ih, degreeOf]
        omega
      · have h2 : ¬ e.source < i + 1 := by omega
        simp [h1, h2, h4, ih, degreeOf]

/-- The prefix-sum offset of node `i` counts the edges with source below
`i`. -/
theorem firstEdgeOffset_eq_length_filter {D : Type} (E : List (InputEdge D)) (i : Nat) :
    firstEdgeOffset E i = (E.filter (fun e => decide (e.source < i))).length := by
  induction i with
  | zero => simp [firstEdgeOffset]
  | succ i ih => rw [firstEdgeOffset_succ, length_filter_source_lt_succ, ih]

/-- Bucket offsets never pass the total edge count. -/
theorem firstEdgeOffset_le_length {D : Type} (E : List (InputEdge D)) (i : Nat) :
    firstEdgeOffset E i ≤ E.length := by
  rw [firstEdgeOffset_eq_length_filter]
  exact List.length_filter_le _ _

/-- With every source in range, the trailing sentinel offset equals the
total edge count. -/
theorem firstEdgeOffset_total {D : Type} (N : Nat) (E : List (InputEdge D))
    (hs : ∀ e ∈ E, e.source < N) : firstEdgeOffset E N = E.length := by
  rw [firstEdgeOffset_eq_length_filter]
  congr 1
  exact List.filter_eq_self.mpr (fun e he => by simpa using hs e he)

/-- A bucket holds exactly as many entries as its source has out-edges. -/
theorem bucketOf_length {D : Type} (E : List (InputEdge D)) (s : Nat) :
    (bucketOf E s).length = degreeOf E s := by
  simp [bucketOf, degreeOf]

/-- In a Mode-B graph, `BeginEdges` of an in-range node reads the
prefix-sum offset of that node. -/
theorem fromEdgeList_beginEdges {D : Type} (N : Nat) (E : List (InputEdge D))
    (i : Nat) (h : i ≤ N) :
    (StaticGraph.fromEdgeList N E).BeginEdges i = firstEdgeOffset E i := by
  have hlt : i < N + 1 := by omega
  simp [StaticGraph.BeginEdges, StaticGraph.fromEdgeList, List.getD_eq_getElem?_getD,
    List.getElem?_range hlt]

/-- In a Mode-B graph, `EndEdges` of an in-range node reads the prefix-sum
offset of its successor. -/
theorem fromEdgeList_endEdges {D : Type} (N : Nat) (E : List (InputEdge D))
    (i : Nat) (h : i < N) :
    (StaticGraph.fromEdgeList N E).EndEdges i = firstEdgeOffset E (i + 1) := by
  have hlt : i + 1 < N + 1 := by omega
  simp [StaticGraph.EndEdges, StaticGraph.fromEdgeList, List.getD_eq_getElem?_getD,
    List.getElem?_range hlt]

/-- In a Mode-B graph, the out-degree of an in-range node is its edge
count in the input list. -/
theorem fromEdgeList_outDegree {D : Type} (N : Nat) (E : List (InputEdge D))
    (i : Nat) (h : i < N) :
    (StaticGraph.fromEdgeList N E).GetOutDegree i = degreeOf E i := by
  rw [StaticGraph.GetOutDegree, fromEdgeList_endEdges N E i h,
    fromEdgeList_beginEdges N E i (le_of_lt h), firstEdgeOffset_succ]
  omega

/-- The buckets of the first `n` sources occupy exactly the first
`firstEdgeOffset E n` slots of the edge array. -/
theorem length_flatMap_bucket {D : Type} (E : List (InputEdge D)) (n : Nat) :
    ((List.range n).flatMap (bucketOf E)).length = firstEdgeOffset E n := by
  induction n with
  | zero => simp [firstEdgeOffset]
  | succ n ih =>
    rw [List.range_succ, List.flatMap_append, List.length_append, ih,
      firstEdgeOffset_succ]
    simp [bucketOf_length]

/-- Dropping the offset of source `s` from the edge array exposes the
bucket of `s` followed by the buckets of the later sources. -/
theorem fromEdgeList_edgeArray_drop {D : Type} (N : Nat) (E : List (InputEdge D))
    (s : Nat) (h : s < N) :
    ((StaticGraph.fromEdgeList N E).edge_array).drop (firstEdgeOffset E s)
      = bucketOf E s ++ (List.range' (s + 1) (N - s - 1)).flatMap (bucketOf E) := by
  have hsplit : List.range N = List.range s ++ List.range' s (N - s) := by
    rw [List.range'_eq_map_range]
    have h2 : N = s + (N - s) := by omega
    rw [h2, List.range_add]
    simp
  have hrest : List.range' s (N - s) = s :: List.range' (s + 1) (N - s - 1) := by
    have h1 : N - s = (N - s - 1) + 1 := by omega
    rw [h1, List.range'_succ]
    simp
  show ((List.range N).flatMap (bucketOf E)).drop (firstEdgeOffset E s) = _
  rw [hsplit, List.flatMap_append, List.drop_left' (length_flatMap_bucket E s), hrest]
  simp

/-- Indexing the edge array inside the range of source `s` lands in the
bucket of `s`. -/
theorem fromEdgeList_edgeArray_getElem {D : Type} (N : Nat) (E : List (InputEdge D))
    (s k : Nat) (h : s < N) (hk : k < degreeOf E s) :
    ((StaticGraph.fromEdgeList N E).edge_array)[firstEdgeOffset E s + k]?
      = (bucketOf E s)[k]? := by
  have h1 := List.getElem?_drop ((StaticGraph.fromEdgeList N E).edge_array)
    (firstEdgeOffset E s) k
  rw [fromEdgeList_edgeArray_drop N E s h] at h1
  rw [← h1]
  exact List.getElem?_append_left (by rw [bucketOf_length]; exact hk)

/-- The target read at slot `k` of the range of source `s` is the target
of the k-th bucket entry of `s`. -/
theorem fromEdgeList_getTarget {D : Type} [Inhabited D] (N : Nat) (E : List (InputEdge D))
    (s k : Nat) (entry : EdgeArrayEntry D) (h : s < N) (hk : k < degreeOf E s)
    (he : (bucketOf E s)[k]? = some entry) :
    (StaticGraph.fromEdgeList N E).GetTarget (firstEdgeOffset E s + k) = entry.target := by
  rw [StaticGraph.GetTarget, List.getD_eq_getElem?_getD,
    fromEdgeList_edgeArray_getElem N E s k h hk, he]
  rfl

/-- A target occurs in the bucket of source `s` exactly when an input edge
from `s` to that target exists. -/
theorem mem_bucketOf_iff_target {D : Type} (E : List (InputEdge D)) (s v : Nat) :
    (∃ entry ∈ bucketOf E s, entry.target = v)
      ↔ ∃ e ∈ E, e.source = s ∧ e.target = v := by
  constructor
  · rintro ⟨entry, hmem, htgt⟩
    simp only [bucketOf, List.mem_map, List.mem_reverse, List.mem_filter] at hmem
    obtain ⟨e, ⟨heE, hsrc⟩, hentry⟩ := hmem
    refine ⟨e, heE, by simpa using hsrc, ?_⟩
    rw [← htgt, ← hentry]
  · rintro ⟨e, heE, hsrc, htgt⟩
    refine ⟨⟨e.target, e.data⟩, ?_, htgt⟩
    simp only [bucketOf, List.mem_map, List.mem_reverse, List.mem_filter]
    exact ⟨e, ⟨heE, by simpa using hsrc⟩, rfl⟩

/-- C1: for every Mode-B construction from a node count N and edge list E
the built graph reports `NodeCount() == N` and `EdgeCount() == |E|`; the
concrete scenario graph built by the edge-list path of the unit test,
however, reports a node count of 4, because `GraphFromEdgeList` derives
the node count as the maximum observed node id without adding one, while
the spec describes the scenario as having 5 nodes (0..4). -/
theorem C1_mode_b_counts_and_test_node_count :
    ((GraphFromEdgeList findTestEdges).GetNumberOfNodes = 4) ∧
    (∀ (D : Type) (N : Nat) (E : List (InputEdge D)),
      (StaticGraph.fromEdgeList N E).GetNumberOfNodes = N ∧
      (StaticGraph.fromEdgeList N E).GetNumberOfEdges = E.length) :=
  ⟨by decide, fun _ _ _ => ⟨rfl, rfl⟩⟩

/-- C2: in every built graph the edge range of node i ends where the range
of node i + 1 begins; in a Mode-B graph whose input sources are all in
range the last node closes the edge array (`EdgeRangeEnd(N-1) ==
EdgeCount()`), and the out-degree of every node i equals the number of
input edges whose source is i. -/
theorem C2_range_adjacency_sentinel_and_outdegree {D : Type} (N : Nat)
    (E : List (InputEdge D)) (hs : ∀ e ∈ E, e.source < N) (i : Nat) (hi : i < N) :
    (∀ (g : StaticGraph D) (j : Nat), g.EndEdges j = g.BeginEdges (j + 1)) ∧
    (i = N - 1 →
      (StaticGraph.fromEdgeList N E).EndEdges i
        = (StaticGraph.fromEdgeList N E).GetNumberOfEdges) ∧
    ((StaticGraph.fromEdgeList N E).GetOutDegree i
      = (E.filter (fun e => e.source == i)).length) := by
  refine ⟨fun g j => rfl, ?_, fromEdgeList_outDegree N E i hi⟩
  intro hlast
  rw [fromEdgeList_endEdges N E i hi]
  have h1 : i + 1 = N := by omega
  rw [h1, firstEdgeOffset_total N E hs]
  rfl

/-- Witness for C2 at the concrete scenario, node 4 (the last node). -/
theorem C2_witness :
    ((StaticGraph.fromEdgeList 5 specScenarioInputEdges).EndEdges 4
        = (StaticGraph.fromEdgeList 5 specScenarioInputEdges).GetNumberOfEdges) ∧
    ((StaticGraph.fromEdgeList 5 specScenarioInputEdges).GetOutDegree 4
        = (specScenarioInputEdges.filter (fun e => e.source == 4)).length) :=
  ⟨(C2_range_adjacency_sentinel_and_outdegree 5 specScenarioInputEdges
      (by decide) 4 (by decide)).2.1 (by decide),
   (C2_range_adjacency_sentinel_and_outdegree 5 specScenarioInputEdges
      (by decide) 4 (by decide)).2.2⟩

/-- C3: in a Mode-B graph, for every in-range source u, `FindEdge(u, v)`
returns `SPECIAL_EDGEID` exactly when no input edge has source u and
target v. -/
theorem C3_findEdge_special_iff_no_edge {D : Type} [Inhabited D] (N : Nat)
    (E : List (InputEdge D)) (u v : Nat) (hu : u < N)
    (hlen : E.length ≤ SPECIAL_EDGEID) :
    (StaticGraph.fromEdgeList N E).FindEdge u v = SPECIAL_EDGEID ↔
      ∀ e ∈ E, ¬(e.source = u ∧ e.target = v) := by
  have hb := fromEdgeList_beginEdges N E u (le_of_lt hu)
  have hd := fromEdgeList_outDegree N E u hu
  have hscan : ∀ k, k < degreeOf E u →
      ∃ entry, (bucketOf E u)[k]? = some entry ∧
        (StaticGraph.fromEdgeList N E).GetTarget (firstEdgeOffset E u + k)
          = entry.target := by
    intro k hk
    have hlen2 : k < (bucketOf E u).length := by rw [bucketOf_length]; exact hk
    refine ⟨(bucketOf E u).get ⟨k, hlen2⟩, ?_, ?_⟩
    · simp [List.getElem?_eq_getElem hlen2]
    · exact fromEdgeList_getTarget N E u k _ hu hk
        (by simp [List.getElem?_eq_getElem hlen2])
  rw [StaticGraph.FindEdge]
  rcases hfind : (List.range' ((StaticGraph.fromEdgeList N E).BeginEdges u)
      ((StaticGraph.fromEdgeList N E).GetOutDegree u)).find?
        (fun i => (StaticGraph.fromEdgeList N E).GetTarget i == v) with _ | i
  · simp only []
    constructor
    · intro _
      rintro e heE ⟨hsrc, htgt⟩
      have h2 := List.find?_eq_none.mp hfind
      have hbkt : ∃ entry ∈ bucketOf E u, entry.target = v :=
        (mem_bucketOf_iff_target E u v).mpr ⟨e, heE, hsrc, htgt⟩
      obtain ⟨entry, hmem, htv⟩ := hbkt
      obtain ⟨k, hk⟩ := List.mem_iff_getElem?.mp hmem
      have hklt : k < degreeOf E u := by
        rw [← bucketOf_length E u]
        exact (List.getElem?_eq_some.mp hk).1
      obtain ⟨entry2, hk2, htgt2⟩ := hscan k hklt
      rw [hk] at hk2
      obtain rfl : entry = entry2 := by injection hk2
      have hx : firstEdgeOffset E u + k ∈
          List.range' ((StaticGraph.fromEdgeList N E).BeginEdges u)
            ((StaticGraph.fromEdgeList N E).GetOutDegree u) := by
        rw [hb, hd, List.mem_range'_1]
        omega
      have h3 := h2 _ hx
      rw [htgt2, htv] at h3
      simp at h3
    · intro _
      trivial
  · simp only []
    have hmem := List.mem_of_find?_eq_some hfind
    rw [hb, hd, List.mem_range'_1] at hmem
    have hub : firstEdgeOffset E u + degreeOf E u ≤ E.length := by
      have h4 := firstEdgeOffset_le_length E (u + 1)
      rw [firstEdgeOffset_succ] at h4
      exact h4
    have hine : i ≠ SPECIAL_EDGEID := by
      intro hcontra
      have h5 : i < E.length := by omega
      omega
    constructor
    · intro h
      exact absurd h hine
    · intro hnone
      exfalso
      have hp := List.find?_some hfind
      have hkform : ∃ k, k < degreeOf E u ∧ i = firstEdgeOffset E u + k :=
        ⟨i - firstEdgeOffset E u, by omega, by omega⟩
      obtain ⟨k, hklt, rfl⟩ := hkform
      obtain ⟨entry, hk2, htgt2⟩ := hscan k hklt
      rw [htgt2] at hp
      have hev : entry.target = v := by simpa using hp
      have hmem2 : entry ∈ bucketOf E u := List.mem_iff_getElem?.mpr ⟨k, hk2⟩
      obtain ⟨e, heE, hsrc, htgt⟩ := (mem_bucketOf_iff_target E u v).mp
        ⟨entry, hmem2, hev⟩
      exact hnone e heE ⟨hsrc, htgt⟩

/-- Witness for C3 at the concrete scenario, pair (3, 1), which has no
edge. -/
theorem C3_witness :
    (StaticGraph.fromEdgeList 5 specScenarioInputEdges).FindEdge 3 1 = SPECIAL_EDGEID :=
  (C3_findEdge_special_iff_no_edge 5 specScenarioInputEdges 3 1 (by decide)
    (by decide)).mpr (by decide)

/-- C4: in a Mode-B graph the adjacency slice of every in-range source
node holds the same-source input edges in reverse input order; in the
concrete scenario the two duplicate edges 3 to 0 carry payload ids 1 and 4
in input order, and `FindEdge(3, 0)` returns the edge whose payload id is
4, the later-inserted duplicate. -/
theorem C4_reverse_bucket_and_duplicate :
    (∀ (D : Type) (N : Nat) (E : List (InputEdge D)) (s : Nat), s < N →
      (((StaticGraph.fromEdgeList N E).edge_array).drop
          ((StaticGraph.fromEdgeList N E).BeginEdges s)).take
            ((StaticGraph.fromEdgeList N E).GetOutDegree s)
        = ((E.filter (fun e => e.source == s)).reverse).map
            (fun e => EdgeArrayEntry.mk e.target e.data)) ∧
    ((specScenarioGraph.GetEdgeData (specScenarioGraph.FindEdge 3 0)).id = 4) := by
  constructor
  · intro D N E s hsN
    rw [fromEdgeList_beginEdges N E s (le_of_lt hsN), fromEdgeList_outDegree N E s hsN,
      fromEdgeList_edgeArray_drop N E s hsN]
    show (bucketOf E s ++ _).take _ = bucketOf E s
    exact List.take_left' (bucketOf_length E s)
  · decide

/-- Witness for C4 at the concrete scenario, source node 3. -/
theorem C4_witness :
    (((StaticGraph.fromEdgeList 5 specScenarioInputEdges).edge_array).drop
        ((StaticGraph.fromEdgeList 5 specScenarioInputEdges).BeginEdges 3)).take
          ((StaticGraph.fromEdgeList 5 specScenarioInputEdges).GetOutDegree 3)
      = ((specScenarioInputEdges.filter (fun e => e.source == 3)).reverse).map
          (fun e => EdgeArrayEntry.mk e.target e.data) :=
  C4_reverse_bucket_and_duplicate.1 TestData 5 specScenarioInputEdges 3 (by decide)

/-- C5: whenever edges exist in both directions between u and v,
`FindEdgeInEitherDirection(u, v)` returns the forward lookup result,
independently of the payloads of the two edges; in the concrete scenario
the lookup for (3, 4) returns the edge with payload id 2 even though a
reverse edge 4 to 3 (payload id 3) also exists. -/
theorem C5_forward_direction_preferred :
    (∀ (D : Type) [Inhabited D] (g : StaticGraph D) (u v : Nat),
      g.FindEdge u v ≠ SPECIAL_EDGEID → g.FindEdge v u ≠ SPECIAL_EDGEID →
      g.FindEdgeInEitherDirection u v = g.FindEdge u v) ∧
    ((specScenarioGraph.GetEdgeData (specScenarioGraph.FindEdgeInEitherDirection 3 4)).id
        = 2 ∧
      specScenarioGraph.FindEdge 4 3 ≠ SPECIAL_EDGEID ∧
      (specScenarioGraph.GetEdgeData (specScenarioGraph.FindEdge 4 3)).id = 3) := by
  refine ⟨?_, by decide, by decide, by decide⟩
  intro D _ g u v hf _
  rw [StaticGraph.FindEdgeInEitherDirection]
  simp [hf]

/-- Witness for C5 at the concrete scenario, pair (3, 4). -/
theorem C5_witness :
    specScenarioGraph.FindEdgeInEitherDirection 3 4 = specScenarioGraph.FindEdge 3 4 :=
  C5_forward_direction_preferred.1 TestData specScenarioGraph 3 4 (by decide) (by decide)

/-- C6: when an edge exists from v to u but none from u to v,
`FindEdgeInEitherDirection(u, v)` returns the reverse lookup result and
`FindEdgeIndicateIfReverse(u, v, result)` returns the same edge while
setting the flag to true. -/
theorem C6_reverse_only_lookup {D : Type} [Inhabited D] (g : StaticGraph D)
    (u v : Nat) (r : Bool) (h1 : g.FindEdge u v = SPECIAL_EDGEID)
    (h2 : g.FindEdge v u ≠ SPECIAL_EDGEID) :
    g.FindEdgeInEitherDirection u v = g.FindEdge v u ∧
    g.FindEdgeIndicateIfReverse u v r = (g.FindEdge v u, true) := by
  constructor
  · rw [StaticGraph.FindEdgeInEitherDirection]
    simp [h1]
  · rw [StaticGraph.FindEdgeIndicateIfReverse]
    simp [h1, h2]

/-- Witness for C6 at the concrete scenario, pair (1, 0), whose edge
exists only as 0 to 1. -/
theorem C6_witness :
    specScenarioGraph.FindEdgeInEitherDirection 1 0 = specScenarioGraph.FindEdge 0 1 ∧
    specScenarioGraph.FindEdgeIndicateIfReverse 1 0 false
      = (specScenarioGraph.FindEdge 0 1, true) :=
  C6_reverse_only_lookup specScenarioGraph 1 0 false (by decide) (by decide)

/-- C7: a Mode-A graph built from a node-offset list of size N + 1
(monotonically non-decreasing, with the closing sentinel repeating the
last offset) and an edge array reproduces, for every node i below N, the
i-th input offset as `BeginEdges(i)`, the successor offset as
`EndEdges(i)` and their difference as `GetOutDegree(i)`; the queries are
pure, so the result is the same in whatever order nodes are queried. -/
theorem C7_mode_a_reproduces_offsets {D : Type} (N : Nat) (offsets : List Nat)
    (edges : List (EdgeArrayEntry D)) (hlen : offsets.length = N + 1)
    (_hmono : offsets.Sorted (· ≤ ·))
    (_hsent : offsets.getD N 0 = offsets.getD (N - 1) 0)
    (i : Nat) (hi : i < N) :
    ((StaticGraph.fromArrays (offsets.map (fun o => NodeArrayEntry.mk o))
        edges).GetNumberOfNodes = N) ∧
    ((StaticGraph.fromArrays (offsets.map (fun o => NodeArrayEntry.mk o))
        edges).BeginEdges i = offsets.getD i 0) ∧
    ((StaticGraph.fromArrays (offsets.map (fun o => NodeArrayEntry.mk o))
        edges).EndEdges i = offsets.getD (i + 1) 0) ∧
    ((StaticGraph.fromArrays (offsets.map (fun o => NodeArrayEntry.mk o))
        edges).GetOutDegree i = offsets.getD (i + 1) 0 - offsets.getD i 0) := by
  have hi1 : i < offsets.length := by omega
  have hi2 : i + 1 < offsets.length := by omega
  refine ⟨?_, ?_, ?_, ?_⟩
  · simp [StaticGraph.fromArrays, StaticGraph.GetNumberOfNodes, hlen]
  · simp [StaticGraph.fromArrays, StaticGraph.BeginEdges, List.getD_eq_getElem?_getD,
      List.getElem?_map, List.getElem?_eq_getElem hi1]
  · simp [StaticGraph.fromArrays, StaticGraph.EndEdges, List.getD_eq_getElem?_getD,
      List.getElem?_map, List.getElem?_eq_getElem hi2]
  · simp [StaticGraph.fromArrays, StaticGraph.GetOutDegree, StaticGraph.BeginEdges,
      StaticGraph.EndEdges, List.getD_eq_getElem?_getD, List.getElem?_map,
      List.getElem?_eq_getElem hi1, List.getElem?_eq_getElem hi2]

/-- Witness for C7 on a concrete offset list with 4 nodes, at node 2. -/
theorem C7_witness :
    ((StaticGraph.fromArrays ([0, 2, 2, 5, 5].map (fun o => NodeArrayEntry.mk o))
        (List.replicate 5 (EdgeArrayEntry.mk 0 (TestData.mk 0 false 0)))).BeginEdges 2
      = [0, 2, 2, 5, 5].getD 2 0) ∧
    ((StaticGraph.fromArrays ([0, 2, 2, 5, 5].map (fun o => NodeArrayEntry.mk o))
        (List.replicate 5 (EdgeArrayEntry.mk 0 (TestData.mk 0 false 0)))).GetOutDegree 2
      = [0, 2, 2, 5, 5].getD 3 0 - [0, 2, 2, 5, 5].getD 2 0) :=
  ⟨(C7_mode_a_reproduces_offsets 4 [0, 2, 2, 5, 5]
      (List.replicate 5 (EdgeArrayEntry.mk 0 (TestData.mk 0 false 0)))
      (by decide) (by decide) (by decide) 2 (by decide)).2.1,
   (C7_mode_a_reproduces_offsets 4 [0, 2, 2, 5, 5]
      (List.replicate 5 (EdgeArrayEntry.mk 0 (TestData.mk 0 false 0)))
      (by decide) (by decide) (by decide) 2 (by decide)).2.2.2⟩

/-- C8: each comparator is a strict weak ordering that depends only on its
named field: ordering holds exactly when the named fields compare
strictly, it is irreflexive and transitive, incomparability is transitive,
and two records with equal keys are ordered in neither direction, so
records differing only in other fields compare as equivalent. -/
theorem C8_comparators_strict_weak_order :
    (∀ a b : InternalExtractorEdge, CmpEdgeByStartID a b = true ↔ a.start < b.start) ∧
    (∀ a b : InternalExtractorEdge, CmpEdgeByTargetID a b = true ↔ a.target < b.target) ∧
    (∀ a : InternalExtractorEdge,
      CmpEdgeByStartID a a = false ∧ CmpEdgeByTargetID a a = false) ∧
    (∀ a b c : InternalExtractorEdge, CmpEdgeByStartID a b = true →
      CmpEdgeByStartID b c = true → CmpEdgeByStartID a c = true) ∧
    (∀ a b c : InternalExtractorEdge, CmpEdgeByTargetID a b = true →
      CmpEdgeByTargetID b c = true → CmpEdgeByTargetID a c = true) ∧
    (∀ a b c : InternalExtractorEdge,
      CmpEdgeByStartID a b = false → CmpEdgeByStartID b a = false →
      CmpEdgeByStartID b c = false → CmpEdgeByStartID c b = false →
      CmpEdgeByStartID a c = false ∧ CmpEdgeByStartID c a = false) ∧
    (∀ a b c : InternalExtractorEdge,
      CmpEdgeByTargetID a b = false → CmpEdgeByTargetID b a = false →
      CmpEdgeByTargetID b c = false → CmpEdgeByTargetID c b = false →
      CmpEdgeByTargetID a c = false ∧ CmpEdgeByTargetID c a = false) ∧
    (∀ a b : InternalExtractorEdge, a.start = b.start →
      CmpEdgeByStartID a b = false ∧ CmpEdgeByStartID b a = false) ∧
    (∀ a b : InternalExtractorEdge, a.target = b.target →
      CmpEdgeByTargetID a b = false ∧ CmpEdgeByTargetID b a = false) := by
  refine ⟨?_, ?_, ?_, ?_, ?_, ?_, ?_, ?_, ?_⟩ <;>
    intros <;> simp_all [CmpEdgeByStartID, CmpEdgeByTargetID] <;> omega

/-- Witness for C8: the minimum bound record sorts before the maximum
bound record under the start comparator. -/
theorem C8_witness :
    CmpEdgeByStartID InternalExtractorEdge.min_value InternalExtractorEdge.max_value
      = true :=
  (C8_comparators_strict_weak_order.1 InternalExtractorEdge.min_value
    InternalExtractorEdge.max_value).mpr (by decide)

/-- C9: the minimum bound record carries start = target = 0 and the
maximum bound record start = target = `SPECIAL_NODEID`, all remaining
fields at benign defaults, and they are global bounds under both
comparators: no record sorts strictly before the minimum, and the maximum
sorts strictly before no record whose key is a representable NodeID. -/
theorem C9_sentinel_bound_records :
    (InternalExtractorEdge.min_value.start = 0 ∧
      InternalExtractorEdge.min_value.target = 0 ∧
      InternalExtractorEdge.max_value.start = SPECIAL_NODEID ∧
      InternalExtractorEdge.max_value.target = SPECIAL_NODEID) ∧
    (InternalExtractorEdge.min_value.direction = 0 ∧
      InternalExtractorEdge.min_value.speed = 0 ∧
      InternalExtractorEdge.min_value.name_id = 0 ∧
      InternalExtractorEdge.min_value.is_roundabout = false ∧
      InternalExtractorEdge.min_value.is_in_tiny_cc = false ∧
      InternalExtractorEdge.min_value.is_duration_set = false ∧
      InternalExtractorEdge.min_value.is_access_restricted = false ∧
      InternalExtractorEdge.min_value.travel_mode = TRAVEL_MODE_INACCESSIBLE ∧
      InternalExtractorEdge.min_value.is_split = false) ∧
    (InternalExtractorEdge.max_value.direction = 0 ∧
      InternalExtractorEdge.max_value.speed = 0 ∧
      InternalExtractorEdge.max_value.name_id = 0 ∧
      InternalExtractorEdge.max_value.is_roundabout = false ∧
      InternalExtractorEdge.max_value.is_in_tiny_cc = false ∧
      InternalExtractorEdge.max_value.is_duration_set = false ∧
      InternalExtractorEdge.max_value.is_access_restricted = false ∧
      InternalExtractorEdge.max_value.travel_mode = TRAVEL_MODE_INACCESSIBLE ∧
      InternalExtractorEdge.max_value.is_split = false) ∧
    (∀ e : InternalExtractorEdge,
      CmpEdgeByStartID e InternalExtractorEdge.min_value = false ∧
      CmpEdgeByTargetID e InternalExtractorEdge.min_value = false) ∧
    (∀ e : InternalExtractorEdge, e.start ≤ SPECIAL_NODEID →
      CmpEdgeByStartID InternalExtractorEdge.max_value e = false) ∧
    (∀ e : InternalExtractorEdge, e.target ≤ SPECIAL_NODEID →
      CmpEdgeByTargetID InternalExtractorEdge.max_value e = false) := by
  refine ⟨⟨rfl, rfl, rfl, rfl⟩, ⟨rfl, rfl, rfl, rfl, rfl, rfl, rfl, rfl, rfl⟩,
    ⟨rfl, rfl, rfl, rfl, rfl, rfl, rfl, rfl, rfl⟩, ?_, ?_, ?_⟩
  · intro e
    constructor <;> simp [CmpEdgeByStartID, CmpEdgeByTargetID,
      InternalExtractorEdge.min_value, InternalExtractorEdge.make]
  · intro e he
    simp only [CmpEdgeByStartID, InternalExtractorEdge.max_value,
      InternalExtractorEdge.make]
    simp only [decide_eq_false_iff_not, not_lt]
    exact he
  · intro e he
    simp only [CmpEdgeByTargetID, InternalExtractorEdge.max_value,
      InternalExtractorEdge.make]
    simp only [decide_eq_false_iff_not, not_lt]
    exact he

/-- Witness for C9: the maximum bound record does not sort before the
minimum bound record. -/
theorem C9_witness :
    CmpEdgeByStartID InternalExtractorEdge.max_value InternalExtractorEdge.min_value
      = false :=
  C9_sentinel_bound_records.2.2.2.2.1 InternalExtractorEdge.min_value (by decide)

/-- C10: the parameterized constructor stores every argument verbatim in
the field of the same name, with no validation or transformation; in
particular the travel mode, stored in a 4-bit-wide field, reads back
exactly as passed for every valid 4-bit travel mode code. -/
theorem C10_constructor_verbatim (start target : Nat) (direction : Int) (speed : Float)
    (name_id : Nat) (is_roundabout is_in_tiny_cc is_duration_set is_access_restricted : Bool)
    (travel_mode : Nat) (is_split : Bool) (htm : travel_mode < 2 ^ 4) :
    (InternalExtractorEdge.make start target direction speed name_id is_roundabout
        is_in_tiny_cc is_duration_set is_access_restricted travel_mode is_split).start
      = start ∧
    (InternalExtractorEdge.make start target direction speed name_id is_roundabout
        is_in_tiny_cc is_duration_set is_access_restricted travel_mode is_split).target
      = target ∧
    (InternalExtractorEdge.make start target direction speed name_id is_roundabout
        is_in_tiny_cc is_duration_set is_access_restricted travel_mode is_split).direction
      = direction ∧
    (InternalExtractorEdge.make start target direction speed name_id is_roundabout
        is_in_tiny_cc is_duration_set is_access_restricted travel_mode is_split).speed
      = speed ∧
    (InternalExtractorEdge.make start target direction speed name_id is_roundabout
        is_in_tiny_cc is_duration_set is_access_restricted travel_mode is_split).name_id
      = name_id ∧
    (InternalExtractorEdge.make start target direction speed name_id is_roundabout
        is_in_tiny_cc is_duration_set is_access_restricted travel_mode
        is_split).is_roundabout = is_roundabout ∧
    (InternalExtractorEdge.make start target direction speed name_id is_roundabout
        is_in_tiny_cc is_duration_set is_access_restricted travel_mode
        is_split).is_in_tiny_cc = is_in_tiny_cc ∧
    (InternalExtractorEdge.make start target direction speed name_id is_roundabout
        is_in_tiny_cc is_duration_set is_access_restricted travel_mode
        is_split).is_duration_set = is_duration_set ∧
    (InternalExtractorEdge.make start target direction speed name_id is_roundabout
        is_in_tiny_cc is_duration_set is_access_restricted travel_mode
        is_split).is_access_restricted = is_access_restricted ∧
    (InternalExtractorEdge.make start target direction speed name_id is_roundabout
        is_in_tiny_cc is_duration_set is_access_restricted travel_mode
        is_split).travel_mode = travel_mode ∧
    (InternalExtractorEdge.make start target direction speed name_id is_roundabout
        is_in_tiny_cc is_duration_set is_access_restricted travel_mode
        is_split).is_split = is_split := by
  refine ⟨rfl, rfl, rfl, rfl, rfl, rfl, rfl, rfl, rfl, ?_, rfl⟩
  show travel_mode % 2 ^ 4 = travel_mode
  exact Nat.mod_eq_of_lt htm

/-- Witness for C10 at a concrete argument tuple with travel mode code
9. -/
theorem C10_witness :
    (InternalExtractorEdge.make 7 9 (-1) 2.5 11 true false true false 9 true).travel_mode
      = 9 :=
  (C10_constructor_verbatim 7 9 (-1) 2.5 11 true false true false 9 true
    (by decide)).2.2.2.2.2.2.2.2.2.1
